import Mathlib

/-!
Shallow embedding of `src/index.js` (NexoraCrew Finance Backend).

The document store is modelled as a Lean list per collection; Mongo query
predicates become boolean predicates on records, and `updateOne` /
`deleteOne` / `updateMany` / `deleteMany` become the corresponding list
transformations.  Each Express handler becomes a function from the caller
identity, the request data and the current collection state to a response
together with the new collection state.
-/

/-- Payload signed into a token by `createToken`: `{ id, name, email }`
(line 68 of `src/index.js`).  On protected routes the verified payload is
attached as `req.user`, so this type doubles as the caller identity. -/
structure JwtPayload where
  id : String
  name : String
  email : String
deriving DecidableEq, Repr

/-- Modelled from the spec: the `jsonwebtoken` library used by `createToken`
and `auth` is an external dependency, not code under `src/`.  Per §4.2 a
token is a signed, tamper-evident value carrying the payload plus issued-at
and expiry timestamps; a well-formed token records the secret it was signed
with (signature validity = that secret equals the server's), and any
non-well-formed string is `malformed`. -/
inductive Jwt where
  | signed (payload : JwtPayload) (iat : Nat) (exp : Nat) (secret : String)
  | malformed
deriving DecidableEq, Repr

/-- Seconds in the `'7d'` expiry window passed to `jwt.sign`. -/
def sevenDays : Nat := 7 * 24 * 60 * 60

/-- Modelled from the spec: `jwt.sign(payload, secret, { expiresIn: '7d' })`
issues a token whose expiry is 7 days from issuance (§4.2). -/
def jwtSign (secret : String) (now : Nat) (p : JwtPayload) : Jwt :=
  .signed p now (now + sevenDays) secret

/-- Modelled from the spec: `jwt.verify(token, secret)` checks signature
integrity and expiry, failing (`none`) if the signature does not match the
server secret, the token is malformed, or the expiry has passed (§4.2);
otherwise it returns the embedded payload without re-checking it against
current user state. -/
def jwtVerify (secret : String) (now : Nat) (t : Jwt) : Option JwtPayload :=
  match t with
  | .malformed => none
  | .signed p _iat exp s =>
      if s = secret then (if now < exp then some p else none) else none

/-- Stored user document (`userSchema`, lines 26-32).  `_id` is the Mongo
object id rendered as a string; `createdAt` is the creation timestamp
rendered as its ISO string. -/
structure User where
  _id : String
  name : String
  email : String
  passwordHash : String
  position : String
  createdAt : String
deriving DecidableEq, Repr

/-- Transaction `type` enum (`['INCOME', 'EXPENSE']`, line 38). -/
inductive TxType where
  | INCOME
  | EXPENSE
deriving DecidableEq, Repr

/-- `investmentType` enum (`['SINGLE', 'TEAM']`, line 46). -/
inductive InvestmentType where
  | SINGLE
  | TEAM
deriving DecidableEq, Repr

/-- Stored transaction document (`transactionSchema`, lines 34-49). -/
structure Transaction where
  _id : String
  userId : String
  userName : String
  date : String
  type : TxType
  category : String
  amount : Int
  paymentMethod : String
  bankAccountId : Option String
  bankName : Option String
  description : String
  attachment : Option String
  investmentType : InvestmentType
  investors : List String
  createdAt : String
deriving DecidableEq, Repr

/-- Card type enum (`['DEBIT', 'CREDIT']`, line 57). -/
inductive CardType where
  | DEBIT
  | CREDIT
deriving DecidableEq, Repr

/-- Stored bank/card document (`bankSchema`, lines 51-58). -/
structure Bank where
  _id : String
  userId : String
  bankName : String
  holderName : String
  cardNumber : String
  expiryDate : String
  cardType : CardType
deriving DecidableEq, Repr

/-- `createToken(user)` (lines 66-72): signs `{ id, name, email }` with the
server secret and a 7-day expiry. -/
def createToken (secret : String) (now : Nat) (u : User) : Jwt :=
  jwtSign secret now { id := u._id, name := u.name, email := u.email }

/-- `sanitizeUser(user)` (lines 74-82): the public user object, rendered as
the ordered key/value pairs of the JS object literal.  Exactly the keys
`id`, `name`, `email`, `position`, `createdAt` appear. -/
def sanitizeUser (u : User) : List (String × String) :=
  [("id", u._id), ("name", u.name), ("email", u.email),
   ("position", u.position), ("createdAt", u.createdAt)]

/-- Public transaction shape produced by `mapTransaction` (lines 84-102). -/
structure TxOut where
  id : String
  userId : String
  userName : String
  date : String
  type : TxType
  category : String
  amount : Int
  paymentMethod : String
  bankAccountId : Option String
  bankName : Option String
  description : String
  attachment : Option String
  investmentType : InvestmentType
  investors : List String
  createdAt : String
deriving DecidableEq, Repr

/-- `mapTransaction(t)` (lines 84-102): renames `_id` to `id`, copies every
other stored field (`t.investors || []` is the identity here since stored
investors is always a list). -/
def mapTransaction (t : Transaction) : TxOut :=
  { id := t._id
    userId := t.userId
    userName := t.userName
    date := t.date
    type := t.type
    category := t.category
    amount := t.amount
    paymentMethod := t.paymentMethod
    bankAccountId := t.bankAccountId
    bankName := t.bankName
    description := t.description
    attachment := t.attachment
    investmentType := t.investmentType
    investors := t.investors
    createdAt := t.createdAt }

/-- Public bank shape produced by `mapBank` (lines 104-114). -/
structure BankOut where
  id : String
  userId : String
  bankName : String
  holderName : String
  cardNumber : String
  expiryDate : String
  cardType : CardType
deriving DecidableEq, Repr

/-- `mapBank(b)` (lines 104-114). -/
def mapBank (b : Bank) : BankOut :=
  { id := b._id
    userId := b.userId
    bankName := b.bankName
    holderName := b.holderName
    cardNumber := b.cardNumber
    expiryDate := b.expiryDate
    cardType := b.cardType }

/-- Result of the `auth` middleware: either a 401 stop with an error body,
or the request proceeds with `req.user` set to the verified payload. -/
inductive AuthResult where
  | failed (status : Nat) (error : String)
  | authed (user : JwtPayload)
deriving DecidableEq, Repr

/-- JS `header.startsWith('Bearer ')`: case-sensitive character-sequence
test, embedded over the string's character data. -/
def jsStartsWith (s pre : String) : Bool :=
  pre.data.isPrefixOf s.data

/-- JS `header.slice(7)`: drop the first 7 characters (the region sliced
off is the 7 ASCII characters of `"Bearer "`, so code-unit counting and
character counting agree). -/
def jsSlice (s : String) (n : Nat) : String :=
  ⟨s.data.drop n⟩

/-- `auth` middleware (lines 118-130).  `req.headers.authorization || ''`
makes a missing header the empty string.  A header not starting with the
exact text `"Bearer "` yields `token = null`; JS `!token` also treats the
empty remainder as missing, which the model folds into `""`.  A present
token is passed to `jwt.verify`, abstracted here as the `verify` argument. -/
def auth (verify : String → Option JwtPayload) (header : String) : AuthResult :=
  let token := if jsStartsWith header "Bearer " then jsSlice header 7 else ""
  if token = "" then .failed 401 "No token"
  else
    match verify token with
    | some payload => .authed payload
    | none => .failed 401 "Invalid token"

/-- Mongo `updateOne(filter, update)`: update the first matching document. -/
def updateOne (p : α → Bool) (f : α → α) : List α → List α
  | [] => []
  | x :: xs => if p x then f x :: xs else x :: updateOne p f xs

/-- Mongo `deleteOne(filter)`: remove the first matching document. -/
def deleteOne (p : α → Bool) : List α → List α
  | [] => []
  | x :: xs => if p x then xs else x :: deleteOne p xs

/-- Mongo `updateMany(filter, update)`: update every matching document. -/
def updateMany (p : α → Bool) (f : α → α) (l : List α) : List α :=
  l.map (fun x => if p x then f x else x)

/-- Mongo `deleteMany(filter)`: remove every matching document. -/
def deleteMany (p : α → Bool) (l : List α) : List α :=
  l.filter (fun x => !p x)

/-- Mongo `findOne({ email })` over the users collection. -/
def findOneByEmail (email : String) (users : List User) : Option User :=
  users.find? (fun u => u.email == email)

/-- Response shape of register/login: 400 with an error message, or the
`{ user, token }` success body (the user part as its key/value pairs). -/
inductive AuthRes where
  | err (status : Nat) (error : String)
  | ok (user : List (String × String)) (token : Jwt)
deriving DecidableEq, Repr

/-- `POST /api/auth/register` (lines 140-155).  `newId` is the object id
Mongo generates for the created document and `nowIso` its creation
timestamp; `hash` abstracts `bcrypt.hash(password, 10)`.  The `position`
field falls back to the schema default `'Member'`. -/
def register (hash : String → String) (secret : String) (now : Nat)
    (newId nowIso : String) (name email password : String)
    (position : Option String) (users : List User) : AuthRes × List User :=
  match findOneByEmail email users with
  | some _ => (.err 400 "Email already exists", users)
  | none =>
      let user : User :=
        { _id := newId
          name := name
          email := email
          passwordHash := hash password
          position := position.getD "Member"
          createdAt := nowIso }
      (.ok (sanitizeUser user) (createToken secret now user), users ++ [user])

/-- `POST /api/auth/login` (lines 158-168).  `compare` abstracts
`bcrypt.compare(password, user.passwordHash)`. -/
def login (compare : String → String → Bool) (secret : String) (now : Nat)
    (email password : String) (users : List User) : AuthRes :=
  match findOneByEmail email users with
  | none => .err 400 "Invalid credentials"
  | some user =>
      if compare password user.passwordHash then
        .ok (sanitizeUser user) (createToken secret now user)
      else .err 400 "Invalid credentials"

/-- Descending-`createdAt` comparator used by `GET /api/users`
(`.sort({ createdAt: -1 })`, line 172). -/
def createdAtDesc (a b : User) : Prop := b.createdAt ≤ a.createdAt

instance : DecidableRel createdAtDesc :=
  fun a b => inferInstanceAs (Decidable (b.createdAt ≤ a.createdAt))

instance : IsTotal User createdAtDesc :=
  ⟨fun a b => le_total b.createdAt a.createdAt⟩

instance : IsTrans User createdAtDesc :=
  ⟨fun _ _ _ hab hbc => le_trans hbc hab⟩

/-- `GET /api/users` (lines 171-174): all users, newest first, sanitized. -/
def getUsers (users : List User) : List (List (String × String)) :=
  (List.insertionSort createdAtDesc users).map sanitizeUser

/-- Descending-`date` comparator used by `GET /api/transactions`
(`.sort({ date: -1 })`, line 180); `date` is a string, so this is the
store's string ordering. -/
def dateDesc (a b : Transaction) : Prop := b.date ≤ a.date

instance : DecidableRel dateDesc :=
  fun a b => inferInstanceAs (Decidable (b.date ≤ a.date))

instance : IsTotal Transaction dateDesc :=
  ⟨fun a b => le_total b.date a.date⟩

instance : IsTrans Transaction dateDesc :=
  ⟨fun _ _ _ hab hbc => le_trans hbc hab⟩

/-- `GET /api/transactions` (lines 179-182): the caller's transactions,
sorted by `date` descending, mapped through `mapTransaction`. -/
def getTransactions (caller : JwtPayload) (txs : List Transaction) : List TxOut :=
  (List.insertionSort dateDesc
    (txs.filter (fun t => t.userId == caller.id))).map mapTransaction

/-- Request body of `POST /api/transactions`.  A client may also send
`userId` / `userName` keys; the handler spreads the body first and then the
server-side fields, so those keys are listed here to show they are
overridden.  `description`, `investmentType`, `investors` and `createdAt`
carry the schema defaults when omitted. -/
structure TxBody where
  userId : Option String := none
  userName : Option String := none
  date : String
  type : TxType
  category : String
  amount : Int
  paymentMethod : String
  bankAccountId : Option String := none
  bankName : Option String := none
  description : String := ""
  attachment : Option String := none
  investmentType : InvestmentType := .SINGLE
  investors : List String := []
  createdAt : Option String := none
deriving DecidableEq, Repr

/-- Document built by `Transaction.create({ ...body, userId: req.user.id,
userName: req.user.name })` (lines 187-191): every body field is kept, and
the trailing `userId` / `userName` keys override any the body carried. -/
def mkTransaction (newId nowIso : String) (caller : JwtPayload)
    (b : TxBody) : Transaction :=
  { _id := newId
    userId := caller.id
    userName := caller.name
    date := b.date
    type := b.type
    category := b.category
    amount := b.amount
    paymentMethod := b.paymentMethod
    bankAccountId := b.bankAccountId
    bankName := b.bankName
    description := b.description
    attachment := b.attachment
    investmentType := b.investmentType
    investors := b.investors
    createdAt := b.createdAt.getD nowIso }

/-- `POST /api/transactions` (lines 185-193). -/
def postTransaction (caller : JwtPayload) (b : TxBody) (newId nowIso : String)
    (txs : List Transaction) : TxOut × List Transaction :=
  let tx := mkTransaction newId nowIso caller b
  (mapTransaction tx, txs ++ [tx])

/-- Partial update body of `PUT /api/transactions/:id`: any subset of the
document's fields, `$set` applied verbatim — including `userId`. -/
structure TxUpdate where
  userId : Option String := none
  userName : Option String := none
  date : Option String := none
  type : Option TxType := none
  category : Option String := none
  amount : Option Int := none
  paymentMethod : Option String := none
  bankAccountId : Option String := none
  bankName : Option String := none
  description : Option String := none
  attachment : Option String := none
  investmentType : Option InvestmentType := none
  investors : Option (List String) := none
  createdAt : Option String := none
deriving DecidableEq, Repr

/-- Mongo `$set: req.body` applied to a stored transaction: each key present
in the body replaces the stored field. -/
def applySet (u : TxUpdate) (t : Transaction) : Transaction :=
  { _id := t._id
    userId := u.userId.getD t.userId
    userName := u.userName.getD t.userName
    date := u.date.getD t.date
    type := u.type.getD t.type
    category := u.category.getD t.category
    amount := u.amount.getD t.amount
    paymentMethod := u.paymentMethod.getD t.paymentMethod
    bankAccountId := u.bankAccountId.orElse (fun _ => t.bankAccountId)
    bankName := u.bankName.orElse (fun _ => t.bankName)
    description := u.description.getD t.description
    attachment := u.attachment.orElse (fun _ => t.attachment)
    investmentType := u.investmentType.getD t.investmentType
    investors := u.investors.getD t.investors
    createdAt := u.createdAt.getD t.createdAt }

/-- ` { success: true } ` response body. -/
structure SuccessResp where
  success : Bool
deriving DecidableEq, Repr

/-- `PUT /api/transactions/:id` (lines 196-203):
`updateOne({ _id: id, userId: req.user.id }, { $set: req.body })`. -/
def putTransaction (caller : JwtPayload) (id : String) (body : TxUpdate)
    (txs : List Transaction) : SuccessResp × List Transaction :=
  ({ success := true },
   updateOne (fun t => t._id == id && t.userId == caller.id) (applySet body) txs)

/-- `DELETE /api/transactions/:id` (lines 206-210):
`deleteOne({ _id: id, userId: req.user.id })`. -/
def deleteTransaction (caller : JwtPayload) (id : String)
    (txs : List Transaction) : SuccessResp × List Transaction :=
  ({ success := true },
   deleteOne (fun t => t._id == id && t.userId == caller.id) txs)

/-- `POST /api/transactions/bulk-delete` (lines 213-217):
`deleteMany({ _id: { $in: ids }, userId: req.user.id })`. -/
def bulkDeleteTransactions (caller : JwtPayload) (ids : List String)
    (txs : List Transaction) : SuccessResp × List Transaction :=
  ({ success := true },
   deleteMany (fun t => ids.contains t._id && t.userId == caller.id) txs)

/-- `POST /api/transactions/bulk-category` (lines 220-227):
`updateMany({ _id: { $in: ids }, userId: req.user.id },
{ $set: { category } })`. -/
def bulkCategoryTransactions (caller : JwtPayload) (ids : List String)
    (category : String) (txs : List Transaction) :
    SuccessResp × List Transaction :=
  ({ success := true },
   updateMany (fun t => ids.contains t._id && t.userId == caller.id)
     (fun t => { t with category := category }) txs)

/-- `GET /api/banks` (lines 232-235): the caller's bank records (no sort). -/
def getBanks (caller : JwtPayload) (banks : List Bank) : List BankOut :=
  (banks.filter (fun b => b.userId == caller.id)).map mapBank

/-- Request body of `POST /api/banks`; a client-sent `userId` key is listed
to show the trailing spread overrides it. -/
structure BankBody where
  userId : Option String := none
  bankName : String
  holderName : String
  cardNumber : String
  expiryDate : String
  cardType : CardType
deriving DecidableEq, Repr

/-- Document built by `Bank.create({ ...req.body, userId: req.user.id })`
(line 239). -/
def mkBank (newId : String) (caller : JwtPayload) (b : BankBody) : Bank :=
  { _id := newId
    userId := caller.id
    bankName := b.bankName
    holderName := b.holderName
    cardNumber := b.cardNumber
    expiryDate := b.expiryDate
    cardType := b.cardType }

/-- `POST /api/banks` (lines 238-241). -/
def postBank (caller : JwtPayload) (b : BankBody) (newId : String)
    (banks : List Bank) : BankOut × List Bank :=
  let bank := mkBank newId caller b
  (mapBank bank, banks ++ [bank])

/-- Partial update body of `PUT /api/banks/:id`. -/
structure BankUpdate where
  userId : Option String := none
  bankName : Option String := none
  holderName : Option String := none
  cardNumber : Option String := none
  expiryDate : Option String := none
  cardType : Option CardType := none
deriving DecidableEq, Repr

/-- Mongo `$set: req.body` applied to a stored bank record. -/
def applyBankSet (u : BankUpdate) (b : Bank) : Bank :=
  { _id := b._id
    userId := u.userId.getD b.userId
    bankName := u.bankName.getD b.bankName
    holderName := u.holderName.getD b.holderName
    cardNumber := u.cardNumber.getD b.cardNumber
    expiryDate := u.expiryDate.getD b.expiryDate
    cardType := u.cardType.getD b.cardType }

/-- `PUT /api/banks/:id` (lines 244-251). -/
def putBank (caller : JwtPayload) (id : String) (body : BankUpdate)
    (banks : List Bank) : SuccessResp × List Bank :=
  ({ success := true },
   updateOne (fun b => b._id == id && b.userId == caller.id)
     (applyBankSet body) banks)

/-- `DELETE /api/banks/:id` (lines 254-258). -/
def deleteBank (caller : JwtPayload) (id : String)
    (banks : List Bank) : SuccessResp × List Bank :=
  ({ success := true },
   deleteOne (fun b => b._id == id && b.userId == caller.id) banks)

/-! ### Helper lemmas about the embedded store operations -/

theorem updateOne_of_forall_not {p : α → Bool} {f : α → α} {l : List α}
    (h : ∀ x ∈ l, p x = false) : updateOne p f l = l := by
  induction l with
  | nil => rfl
  | cons x xs ih =>
      simp [updateOne, h x (List.mem_cons_self x xs)]
      exact ih fun y hy => h y (List.mem_cons_of_mem x hy)

theorem deleteOne_of_forall_not {p : α → Bool} {l : List α}
    (h : ∀ x ∈ l, p x = false) : deleteOne p l = l := by
  induction l with
  | nil => rfl
  | cons x xs ih =>
      simp [deleteOne, h x (List.mem_cons_self x xs)]
      exact ih fun y hy => h y (List.mem_cons_of_mem x hy)

theorem mem_updateOne_of_not {p : α → Bool} {f : α → α} {l : List α} {x : α}
    (hx : x ∈ l) (hp : p x = false) : x ∈ updateOne p f l := by
  induction l with
  | nil => exact absurd hx (List.not_mem_nil x)
  | cons y ys ih =>
      rcases List.mem_cons.mp hx with rfl | hmem
      · simp [updateOne, hp]
      · by_cases hy : p y = true
        · simp only [updateOne, hy, if_true]
          exact List.mem_cons_of_mem _ hmem
        · simp only [Bool.not_eq_true] at hy
          simp only [updateOne, hy, Bool.false_eq_true, if_false]
          exact List.mem_cons_of_mem _ (ih hmem)

theorem mem_deleteOne_of_not {p : α → Bool} {l : List α} {x : α}
    (hx : x ∈ l) (hp : p x = false) : x ∈ deleteOne p l := by
  induction l with
  | nil => exact absurd hx (List.not_mem_nil x)
  | cons y ys ih =>
      rcases List.mem_cons.mp hx with rfl | hmem
      · simp [deleteOne, hp]
      · by_cases hy : p y = true
        · simpa [deleteOne, hy] using hmem
        · simp only [deleteOne, Bool.not_eq_true] at hy ⊢
          rw [hy]
          simp
          exact Or.inr (ih hmem)

theorem mem_deleteMany_of_not {p : α → Bool} {l : List α} {x : α}
    (hx : x ∈ l) (hp : p x = false) : x ∈ deleteMany p l :=
  List.mem_filter.mpr ⟨hx, by simp [hp]⟩

theorem mem_updateMany_of_not {p : α → Bool} {f : α → α} {l : List α} {x : α}
    (hx : x ∈ l) (hp : p x = false) : x ∈ updateMany p f l :=
  List.mem_map.mpr ⟨x, hx, by simp [hp]⟩

theorem map_updateOne_of_preserved {p : α → Bool} {f : α → α} {g : α → β}
    {l : List α} (h : ∀ x, g (f x) = g x) :
    (updateOne p f l).map g = l.map g := by
  induction l with
  | nil => rfl
  | cons x xs ih =>
      by_cases hx : p x = true
      · simp [updateOne, hx, h x]
      · simp only [updateOne, Bool.not_eq_true] at hx ⊢
        rw [hx]
        simp [ih]

theorem map_updateMany_of_preserved {p : α → Bool} {f : α → α} {g : α → β}
    {l : List α} (h : ∀ x, g (f x) = g x) :
    (updateMany p f l).map g = l.map g := by
  induction l with
  | nil => rfl
  | cons x xs ih =>
      by_cases hx : p x = true <;> simp [updateMany, hx, h x] at ih ⊢ <;>
        simpa [updateMany] using ih

theorem and_beq_snd_false [BEq β] [LawfulBEq β] {c : Bool} {b b' : β}
    (h : b ≠ b') : (c && (b == b')) = false := by
  simp [h]

theorem and_beq_eq_false [BEq γ] [LawfulBEq γ] [BEq β] [LawfulBEq β]
    {a a' : γ} {b b' : β} (h : ¬(a = a' ∧ b = b')) :
    (a == a' && b == b') = false := by
  rcases not_and_or.mp h with h1 | h1 <;> simp [h1]

theorem jsStartsWith_append (pre t : String) : jsStartsWith (pre ++ t) pre = true := by
  simp [jsStartsWith, String.data_append, List.isPrefixOf_iff_prefix]

theorem jsSlice_bearer (t : String) : jsSlice ("Bearer " ++ t) 7 = t := by
  show String.mk (("Bearer " ++ t).data.drop 7) = t
  rw [String.data_append]
  have h7 : "Bearer ".data.length = 7 := by decide
  rw [← h7, List.drop_left]

/-! ### Concrete fixtures used by counterexamples and witnesses -/

/-- Caller identity for user `A`. -/
def callerA : JwtPayload := { id := "A", name := "Alice", email := "alice@x" }

/-- A transaction owned by user `A`. -/
def tA : Transaction :=
  { _id := "t1"
    userId := "A"
    userName := "Alice"
    date := "2024-01-02"
    type := .EXPENSE
    category := "food"
    amount := 5
    paymentMethod := "cash"
    bankAccountId := none
    bankName := none
    description := ""
    attachment := none
    investmentType := .SINGLE
    investors := []
    createdAt := "2024-01-02T00:00:00.000Z" }

/-- A transaction owned by user `B`. -/
def tB : Transaction := { tA with _id := "t2", userId := "B", userName := "Bob" }

/-- A bank record owned by user `B`. -/
def bankB : Bank :=
  { _id := "b1"
    userId := "B"
    bankName := "X Bank"
    holderName := "Bob"
    cardNumber := "1234"
    expiryDate := "12/25"
    cardType := .DEBIT }

/-- A `PUT /transactions/:id` body whose only key is `userId: "B"`. -/
def stealUpdate : TxUpdate := { userId := some "B" }

/-- A stored user record for `A`. -/
def uA : User :=
  { _id := "A"
    name := "Alice"
    email := "alice@x"
    passwordHash := "h"
    position := "Member"
    createdAt := "2024-01-01T00:00:00.000Z" }

/-- The user document `register` creates from the fixture request below. -/
def regUser : User :=
  { _id := "B"
    name := "Bob"
    email := "bob@x"
    passwordHash := "HH"
    position := "Member"
    createdAt := "iso" }

/-! ### Claim theorems -/

/-- C1: every read, update, or delete operation over Transaction or Bank
records (including bulk-delete and bulk-category, for every id in the
batch) filters by owner id in addition to any client-supplied resource id:
the caller's list endpoints return only records whose `userId` is the
caller's id, and every mutating endpoint leaves every record owned by a
different user untouched in the store. -/
theorem ownership_scoping (caller : JwtPayload) (txs : List Transaction)
    (banks : List Bank) (id : String) (ids : List String) (upd : TxUpdate)
    (bupd : BankUpdate) (cat : String) :
    (∀ r ∈ getTransactions caller txs, r.userId = caller.id) ∧
    (∀ r ∈ getBanks caller banks, r.userId = caller.id) ∧
    (∀ t ∈ txs, t.userId ≠ caller.id → t ∈ (putTransaction caller id upd txs).2) ∧
    (∀ t ∈ txs, t.userId ≠ caller.id → t ∈ (deleteTransaction caller id txs).2) ∧
    (∀ t ∈ txs, t.userId ≠ caller.id → t ∈ (bulkDeleteTransactions caller ids txs).2) ∧
    (∀ t ∈ txs, t.userId ≠ caller.id → t ∈ (bulkCategoryTransactions caller ids cat txs).2) ∧
    (∀ b ∈ banks, b.userId ≠ caller.id → b ∈ (putBank caller id bupd banks).2) ∧
    (∀ b ∈ banks, b.userId ≠ caller.id → b ∈ (deleteBank caller id banks).2) := by
  refine ⟨?_, ?_, ?_, ?_, ?_, ?_, ?_, ?_⟩
  · intro r hr
    obtain ⟨t, ht, rfl⟩ := List.mem_map.mp hr
    have ht' : t ∈ txs.filter (fun t => t.userId == caller.id) :=
      (List.perm_insertionSort dateDesc _).mem_iff.mp ht
    exact eq_of_beq (List.mem_filter.mp ht').2
  · intro r hr
    obtain ⟨b, hb, rfl⟩ := List.mem_map.mp hr
    exact eq_of_beq (List.mem_filter.mp hb).2
  · intro t ht hne
    exact mem_updateOne_of_not ht (and_beq_snd_false hne)
  · intro t ht hne
    exact mem_deleteOne_of_not ht (and_beq_snd_false hne)
  · intro t ht hne
    exact mem_deleteMany_of_not ht (and_beq_snd_false hne)
  · intro t ht hne
    exact mem_updateMany_of_not ht (and_beq_snd_false hne)
  · intro b hb hne
    exact mem_updateOne_of_not hb (and_beq_snd_false hne)
  · intro b hb hne
    exact mem_deleteOne_of_not hb (and_beq_snd_false hne)

/-- Witness for `ownership_scoping`: caller `A` sees their own record in the
list, and `A`'s update/bulk-delete/delete requests aimed at `B`'s records
leave them in the store unchanged. -/
theorem ownership_scoping_witness :
    (mapTransaction tA).userId = callerA.id ∧
    tB ∈ (putTransaction callerA "t2" stealUpdate [tB]).2 ∧
    tB ∈ (bulkDeleteTransactions callerA ["t2"] [tB]).2 ∧
    bankB ∈ (deleteBank callerA "b1" [bankB]).2 :=
  ⟨(ownership_scoping callerA [tA] [] "x" [] {} {} "c").1 (mapTransaction tA) (by decide),
   (ownership_scoping callerA [tB] [] "t2" [] stealUpdate {} "c").2.2.1 tB
     (by decide) (by decide),
   (ownership_scoping callerA [tB] [] "x" ["t2"] {} {} "c").2.2.2.2.1 tB
     (by decide) (by decide),
   (ownership_scoping callerA [] [bankB] "b1" [] {} {} "c").2.2.2.2.2.2.2 bankB
     (by decide) (by decide)⟩

/-- C2 counterexample: the claim that no operation — including the owner's
own `PUT /transactions/:id` with arbitrary partial fields — can change a
transaction's `userId` is false: `$set: req.body` is applied verbatim, so
the owner's PUT with body `{ userId: "B" }` transfers the record to `B`. -/
theorem put_body_userId_transfers_ownership :
    (putTransaction callerA "t1" stealUpdate [tA]).2.map Transaction.userId = ["B"] ∧
    tA.userId = "A" ∧ stealUpdate.userId = some "B" ∧ ("B" : String) ≠ "A" :=
  ⟨by decide, by decide, rfl, by decide⟩

/-- C2 (amended): a transaction's `userId` is unchanged by every operation
except the owner's own PUT whose body contains a `userId` key: a PUT whose
body omits `userId` preserves every stored `userId`, bulk-category never
changes any `userId`, and a PUT whose target id is absent or owned by
someone else changes nothing at all. -/
theorem userId_immutable_up_to_put_body :
    ∀ (caller : JwtPayload) (id cat : String) (body : TxUpdate)
      (ids : List String) (txs : List Transaction),
    (body.userId = none →
       (putTransaction caller id body txs).2.map Transaction.userId =
         txs.map Transaction.userId) ∧
    ((bulkCategoryTransactions caller ids cat txs).2.map Transaction.userId =
       txs.map Transaction.userId) ∧
    ((∀ t ∈ txs, ¬(t._id = id ∧ t.userId = caller.id)) →
       (putTransaction caller id body txs).2 = txs) := by
  intro caller id cat body ids txs
  refine ⟨fun hb => ?_, ?_, fun h => ?_⟩
  · exact map_updateOne_of_preserved fun t => by simp [applySet, hb]
  · exact map_updateMany_of_preserved fun t => rfl
  · exact updateOne_of_forall_not fun t ht => and_beq_eq_false (h t ht)

/-- Witness for `userId_immutable_up_to_put_body`: a PUT without a `userId`
key keeps the owner, and a PUT aimed at a foreign record is a no-op even
with a `userId` key in the body. -/
theorem userId_immutable_up_to_put_body_witness :
    (putTransaction callerA "t1" { category := some "misc" } [tA]).2.map
      Transaction.userId = [tA].map Transaction.userId ∧
    (putTransaction callerA "t2" stealUpdate [tB]).2 = [tB] :=
  ⟨(userId_immutable_up_to_put_body callerA "t1" "c" { category := some "misc" }
      [] [tA]).1 rfl,
   (userId_immutable_up_to_put_body callerA "t2" "c" stealUpdate [] [tB]).2.2
     (by decide)⟩

/-- C3: `GET /transactions` returns exactly the caller's transactions
(a permutation of the owner-filtered store contents) ordered by the `date`
field descending. -/
theorem transactions_newest_first (caller : JwtPayload) (txs : List Transaction) :
    (getTransactions caller txs).Pairwise (fun a b : TxOut => b.date ≤ a.date) ∧
    (getTransactions caller txs).Perm
      ((txs.filter (fun t => t.userId == caller.id)).map mapTransaction) := by
  constructor
  · rw [getTransactions, List.pairwise_map]
    exact List.sorted_insertionSort dateDesc _
  · exact (List.perm_insertionSort dateDesc _).map mapTransaction

/-- C4: an update or delete whose target id does not exist or is owned by
another user silently succeeds: the response is `{success:true}` and the
store is unchanged; deleting an already-deleted id answers `{success:true}`
both times. -/
theorem missing_or_foreign_silent_success (caller : JwtPayload) (id : String)
    (tbody : TxUpdate) (bbody : BankUpdate) (txs : List Transaction)
    (banks : List Bank) :
    ((∀ t ∈ txs, ¬(t._id = id ∧ t.userId = caller.id)) →
       putTransaction caller id tbody txs = ({ success := true }, txs) ∧
       deleteTransaction caller id txs = ({ success := true }, txs)) ∧
    ((∀ b ∈ banks, ¬(b._id = id ∧ b.userId = caller.id)) →
       putBank caller id bbody banks = ({ success := true }, banks) ∧
       deleteBank caller id banks = ({ success := true }, banks)) ∧
    ((deleteTransaction caller id txs).1 = { success := true } ∧
     (deleteTransaction caller id (deleteTransaction caller id txs).2).1 =
       { success := true }) := by
  refine ⟨fun h => ⟨?_, ?_⟩, fun h => ⟨?_, ?_⟩, rfl, rfl⟩
  · have h2 := updateOne_of_forall_not (f := applySet tbody)
      (fun t ht => and_beq_eq_false (h t ht))
    simp [putTransaction, h2]
  · have h2 := deleteOne_of_forall_not (fun t ht => and_beq_eq_false (h t ht))
    simp [deleteTransaction, h2]
  · have h2 := updateOne_of_forall_not (f := applyBankSet bbody)
      (fun b hb => and_beq_eq_false (h b hb))
    simp [putBank, h2]
  · have h2 := deleteOne_of_forall_not (fun b hb => and_beq_eq_false (h b hb))
    simp [deleteBank, h2]

/-- Witness for `missing_or_foreign_silent_success`: caller `A` updating and
deleting `B`'s transaction and bank record gets `{success:true}` with the
store untouched, and a repeated delete still answers `{success:true}`. -/
theorem missing_or_foreign_silent_success_witness :
    putTransaction callerA "t2" stealUpdate [tB] = ({ success := true }, [tB]) ∧
    deleteTransaction callerA "t2" [tB] = ({ success := true }, [tB]) ∧
    putBank callerA "b1" {} [bankB] = ({ success := true }, [bankB]) ∧
    deleteBank callerA "b1" [bankB] = ({ success := true }, [bankB]) ∧
    (deleteTransaction callerA "t1"
       (deleteTransaction callerA "t1" [tA]).2).1 = { success := true } :=
  ⟨((missing_or_foreign_silent_success callerA "t2" stealUpdate {} [tB] []).1
      (by decide)).1,
   ((missing_or_foreign_silent_success callerA "t2" stealUpdate {} [tB] []).1
      (by decide)).2,
   ((missing_or_foreign_silent_success callerA "b1" {} {} [] [bankB]).2.1
      (by decide)).1,
   ((missing_or_foreign_silent_success callerA "b1" {} {} [] [bankB]).2.1
      (by decide)).2,
   (missing_or_foreign_silent_success callerA "t1" {} {} [tA] []).2.2.2⟩

/-- C5: every failed login — unknown email or wrong password for an
existing email — answers HTTP 400 with the identical message
`"Invalid credentials"`, so the response does not reveal whether the email
exists. -/
theorem login_uniform_invalid_credentials
    (compare : String → String → Bool) (secret : String) (now : Nat)
    (email password : String) (users : List User) :
    (findOneByEmail email users = none →
       login compare secret now email password users =
         .err 400 "Invalid credentials") ∧
    (∀ u, findOneByEmail email users = some u →
       compare password u.passwordHash = false →
       login compare secret now email password users =
         .err 400 "Invalid credentials") := by
  constructor
  · intro h
    simp [login, h]
  · intro u hu hc
    simp [login, hu, hc]

/-- Witness for `login_uniform_invalid_credentials`: an unknown email and a
wrong password against a known email produce the same 400 body. -/
theorem login_uniform_invalid_credentials_witness :
    login (fun _ _ => false) "s" 0 "nobody@x" "pw" [uA] =
      .err 400 "Invalid credentials" ∧
    login (fun _ _ => false) "s" 0 "alice@x" "pw" [uA] =
      .err 400 "Invalid credentials" :=
  ⟨(login_uniform_invalid_credentials (fun _ _ => false) "s" 0 "nobody@x" "pw"
      [uA]).1 (by decide),
   (login_uniform_invalid_credentials (fun _ _ => false) "s" 0 "alice@x" "pw"
      [uA]).2 uA (by decide) rfl⟩

/-- C6: no endpoint that returns user data ever includes the password hash:
`sanitizeUser` emits exactly the keys id/name/email/position/createdAt, its
output does not depend on the stored hash at all, and every user object in
the `GET /users`, register and login responses is a `sanitizeUser` image. -/
theorem password_hash_never_in_responses (u : User) (h : String)
    (users : List User) (hash : String → String)
    (compare : String → String → Bool) (secret : String) (now : Nat)
    (newId nowIso name email password : String) (position : Option String) :
    (sanitizeUser u).map Prod.fst =
      ["id", "name", "email", "position", "createdAt"] ∧
    "passwordHash" ∉ (sanitizeUser u).map Prod.fst ∧
    sanitizeUser { u with passwordHash := h } = sanitizeUser u ∧
    (∀ fields ∈ getUsers users, "passwordHash" ∉ fields.map Prod.fst) ∧
    (∀ fields token users',
       register hash secret now newId nowIso name email password position users =
         (.ok fields token, users') →
       "passwordHash" ∉ fields.map Prod.fst) ∧
    (∀ fields token,
       login compare secret now email password users = .ok fields token →
       "passwordHash" ∉ fields.map Prod.fst) := by
  have hnot : ∀ v : User, "passwordHash" ∉ (sanitizeUser v).map Prod.fst := by
    intro v
    have hkeys : (sanitizeUser v).map Prod.fst =
        ["id", "name", "email", "position", "createdAt"] := rfl
    rw [hkeys]
    decide
  refine ⟨rfl, hnot u, rfl, ?_, ?_, ?_⟩
  · intro fields hf
    obtain ⟨v, _, rfl⟩ := List.mem_map.mp hf
    exact hnot v
  · intro fields token users' hreg
    cases hfind : findOneByEmail email users with
    | some w => simp [register, hfind] at hreg
    | none =>
        simp only [register, hfind, Prod.mk.injEq, AuthRes.ok.injEq] at hreg
        obtain ⟨⟨hfields, -⟩, -⟩ := hreg
        rw [← hfields]
        exact hnot _
  · intro fields token hlog
    cases hfind : findOneByEmail email users with
    | none => simp [login, hfind] at hlog
    | some w =>
        by_cases hc : compare password w.passwordHash = true
        · simp only [login, hfind, hc, if_true, AuthRes.ok.injEq] at hlog
          obtain ⟨hfields, -⟩ := hlog
          rw [← hfields]
          exact hnot w
        · simp only [Bool.not_eq_true] at hc
          simp [login, hfind, hc] at hlog

/-- Witness for `password_hash_never_in_responses`: the hash key is absent
from a concrete `GET /users` element and from a concrete register
response. -/
theorem password_hash_never_in_responses_witness :
    "passwordHash" ∉ (sanitizeUser uA).map Prod.fst ∧
    "passwordHash" ∉ (sanitizeUser regUser).map Prod.fst :=
  ⟨(password_hash_never_in_responses uA "x" [uA] (fun _ => "HH")
      (fun _ _ => true) "s" 0 "B" "iso" "Bob" "bob@x" "pw" none).2.2.2.1
      (sanitizeUser uA) (by decide),
   (password_hash_never_in_responses uA "x" [] (fun _ => "HH")
      (fun _ _ => true) "s" 0 "B" "iso" "Bob" "bob@x" "pw" none).2.2.2.2.1
      (sanitizeUser regUser) (createToken "s" 0 regUser) [regUser] rfl⟩

/-- C7: token verification fails exactly when the signature does not match
the server secret, the token is malformed, or the expiry — set by issuance
to 7 days after `iat` — has passed; in particular every server-signed token
whose issued-at lies 7 days or more in the past fails, every fresher one
succeeds, and the middleware surfaces a failed verification of a present
token as 401 `Invalid token`. -/
theorem token_verification_boundary (secret : String) (now : Nat) :
    (jwtVerify secret now .malformed = none) ∧
    (∀ (p : JwtPayload) (iat exp : Nat) (s : String),
       jwtVerify secret now (.signed p iat exp s) = none ↔
         (s ≠ secret ∨ exp ≤ now)) ∧
    (∀ (p : JwtPayload) (iat : Nat),
       jwtSign secret iat p = .signed p iat (iat + sevenDays) secret) ∧
    (∀ (p : JwtPayload) (iat : Nat), iat + sevenDays ≤ now →
       jwtVerify secret now (jwtSign secret iat p) = none) ∧
    (∀ (p : JwtPayload) (iat : Nat), now < iat + sevenDays →
       jwtVerify secret now (jwtSign secret iat p) = some p) ∧
    (∀ (decode : String → Jwt) (header : String),
       jsStartsWith header "Bearer " = true → jsSlice header 7 ≠ "" →
       jwtVerify secret now (decode (jsSlice header 7)) = none →
       auth (fun s => jwtVerify secret now (decode s)) header =
         .failed 401 "Invalid token") := by
  refine ⟨rfl, ?_, fun p iat => rfl, ?_, ?_, ?_⟩
  · intro p iat exp s
    constructor
    · intro hv
      by_cases hs : s = secret
      · by_cases he : now < exp
        · simp [jwtVerify, hs, he] at hv
        · exact Or.inr (Nat.not_lt.mp he)
      · exact Or.inl hs
    · intro hor
      rcases hor with hs | he
      · simp [jwtVerify, hs]
      · have hne : ¬ now < exp := Nat.not_lt.mpr he
        by_cases hs : s = secret <;> simp [jwtVerify, hs, hne]
  · intro p iat hle
    have hne : ¬ now < iat + sevenDays := Nat.not_lt.mpr hle
    simp [jwtVerify, jwtSign, hne]
  · intro p iat hlt
    simp [jwtVerify, jwtSign, hlt]
  · intro decode header h1 h2 h3
    simp [auth, h1, h2, h3]

/-- Witness for `token_verification_boundary`: with `now` past the 7-day
window a token signed at `iat = 0` fails verification, and a present but
malformed token is answered with 401 `Invalid token`. -/
theorem token_verification_boundary_witness :
    jwtVerify "s" 700000 (jwtSign "s" 0 callerA) = none ∧
    auth (fun t => jwtVerify "s" 700000 ((fun _ => Jwt.malformed) t)) "Bearer x" =
      .failed 401 "Invalid token" :=
  ⟨(token_verification_boundary "s" 700000).2.2.2.1 callerA 0 (by decide),
   (token_verification_boundary "s" 700000).2.2.2.2.2 (fun _ => Jwt.malformed)
     "Bearer x" (by decide) (by decide) rfl⟩

/-- C8: creating a transaction and then listing returns a record whose
fields equal the request body's fields plus the server-injected owner id,
owner name, and the generated document id. -/
theorem create_then_list_roundtrip (caller : JwtPayload) (b : TxBody)
    (newId nowIso : String) (txs : List Transaction) :
    ∃ r ∈ getTransactions caller (postTransaction caller b newId nowIso txs).2,
      r.id = newId ∧ r.userId = caller.id ∧ r.userName = caller.name ∧
      r.date = b.date ∧ r.type = b.type ∧ r.category = b.category ∧
      r.amount = b.amount ∧ r.paymentMethod = b.paymentMethod ∧
      r.bankAccountId = b.bankAccountId ∧ r.bankName = b.bankName ∧
      r.description = b.description ∧ r.attachment = b.attachment ∧
      r.investmentType = b.investmentType ∧ r.investors = b.investors := by
  refine ⟨mapTransaction (mkTransaction newId nowIso caller b), ?_,
    rfl, rfl, rfl, rfl, rfl, rfl, rfl, rfl, rfl, rfl, rfl, rfl, rfl, rfl⟩
  have hmem : mkTransaction newId nowIso caller b ∈
      (postTransaction caller b newId nowIso txs).2 := by
    simp [postTransaction]
  have hfil : mkTransaction newId nowIso caller b ∈
      ((postTransaction caller b newId nowIso txs).2.filter
        (fun t => t.userId == caller.id)) :=
    List.mem_filter.mpr ⟨hmem, by simp [mkTransaction]⟩
  exact List.mem_map.mpr
    ⟨_, (List.perm_insertionSort dateDesc _).mem_iff.mpr hfil, rfl⟩

/-- C9: the create handlers spread the body first and the server identity
last, so the stored document is the appended record whose `userId` (and
`userName` for transactions) is the caller's, whatever the body claimed. -/
theorem created_records_owned_by_caller (caller : JwtPayload) (b : TxBody)
    (bb : BankBody) (newId nowIso : String) (txs : List Transaction)
    (banks : List Bank) :
    ((postTransaction caller b newId nowIso txs).2 =
       txs ++ [mkTransaction newId nowIso caller b] ∧
     (mkTransaction newId nowIso caller b).userId = caller.id ∧
     (mkTransaction newId nowIso caller b).userName = caller.name ∧
     (∀ x y, (mkTransaction newId nowIso caller
         { b with userId := some x, userName := some y }).userId = caller.id ∧
       (mkTransaction newId nowIso caller
         { b with userId := some x, userName := some y }).userName =
           caller.name)) ∧
    ((postBank caller bb newId banks).2 = banks ++ [mkBank newId caller bb] ∧
     (mkBank newId caller bb).userId = caller.id ∧
     (∀ x, (mkBank newId caller { bb with userId := some x }).userId =
       caller.id)) :=
  ⟨⟨rfl, rfl, rfl, fun _ _ => ⟨rfl, rfl⟩⟩, ⟨rfl, rfl, fun _ => rfl⟩⟩

/-- C10: a protected route requires the case-sensitive header text
`"Bearer "`: any header not starting with it is answered 401
`{error: "No token"}`, while a present token that fails verification is
answered with the distinct body `{error: "Invalid token"}`. -/
theorem bearer_prefix_required (verify : String → Option JwtPayload)
    (header : String) :
    (jsStartsWith header "Bearer " = false →
       auth verify header = .failed 401 "No token") ∧
    (∀ t : String, t ≠ "" → verify t = none →
       auth verify ("Bearer " ++ t) = .failed 401 "Invalid token") ∧
    ("No token" : String) ≠ "Invalid token" := by
  refine ⟨fun h => ?_, fun t ht hv => ?_, by decide⟩
  · simp [auth, h]
  · simp [auth, jsStartsWith_append, jsSlice_bearer, ht, hv]

/-- Witness for `bearer_prefix_required`: a lower-case `bearer` header is
treated as a missing token, and a well-prefixed header with a failing token
gets the `Invalid token` body. -/
theorem bearer_prefix_required_witness :
    auth (fun _ => none) "bearer abc" = .failed 401 "No token" ∧
    auth (fun _ => none) ("Bearer " ++ "abc") = .failed 401 "Invalid token" :=
  ⟨(bearer_prefix_required (fun _ => none) "bearer abc").1 (by decide),
   (bearer_prefix_required (fun _ => none) "bearer abc").2.1 "abc" (by decide) rfl⟩
